import Mathlib

/-!
Verification of the heating-value computation from the combustion tutorial
notebook `Chapter_2/2_5_Heating_value.ipynb`.

The notebook's only computational unit is the function `heating_values(fuel)`,
which drives an external thermochemistry library (Cantera) through a fixed
sequence of calls: set a gas mixture to a stoichiometric fuel/air state at the
reference temperature and pressure, read the reactant enthalpy and fuel mass
fraction, balance the combustion equation of a generic C_x H_y O_z fuel,
re-set the mixture to the complete-combustion product state, read the product
enthalpy, and combine these into four heating values.

We embed the routine shallowly: the external library is an abstract oracle
(`CanteraModel`) supplying composition setting, enthalpy lookup, atom counts,
molecular weights and water-phase enthalpy; the mutable gas object is explicit
state (`GasState`) threaded through the function.  A fallible variant
(`CanteraModelE` / `heating_valuesE`) models the library calls that can raise
exceptions.  All definitions are generic over a field `K` so that they are
executable at `K = ℚ` and cover the real-number reading at `K = ℝ`.
-/

namespace HeatingValue

/-- The thermochemical state of the mutable gas mixture object: temperature,
pressure and composition (the composition representation `C` is owned by the
library model). -/
structure GasState (C : Type) (K : Type) where
  T : K
  P : K
  X : C

/-- Abstract model of the external thermochemistry library, as used by the
`heating_values` function of the notebook:
* `eqRatioComp fuel` — the composition produced by
  `gas.set_equivalence_ratio(1.0, fuel, air)` with `air = 'O2:1.0 N2:3.76'`
  and `phi = 1.0` fixed by the function;
* `enthalpy_mass T P X` — `gas.enthalpy_mass` at state `(T, P, X)` (J/kg);
* `massFrac X s` — `gas.Y[gas.species_index(s)]` at composition `X`;
* `n_atoms s e` — `gas.n_atoms(s, e)`, the count of atoms of element `e` in
  species `s`;
* `molecular_weights s` — `gas.molecular_weights[gas.species_index(s)]`;
* `normX (nCO2, nH2O, nN2)` — the composition set by
  `gas.TPX = None, None, {CO2: nCO2, H2O: nH2O, N2: nN2}` (relative mole
  numbers, normalized by the library);
* `waterH T q` — `water.h` after `water.TX = T, q` on the separate
  liquid/vapor water object (`q` is the vapor fraction). -/
structure CanteraModel (K : Type) where
  Comp : Type
  eqRatioComp : String → Comp
  enthalpy_mass : K → K → Comp → K
  massFrac : Comp → String → K
  n_atoms : String → String → K
  molecular_weights : String → K
  normX : K × K × K → Comp
  waterH : K → K → K

/-- Value of `ct.one_atm` in Pa. -/
def one_atm (K : Type) [Field K] : K := 101325

/-- The reference temperature `T_ref = 298.15` K used by `heating_values`. -/
def T_ref (K : Type) [Field K] : K := 298.15

/-- Stoichiometric coefficient `a = x + y/4. - z/2.`: moles of O2 needed per
mole of C_x H_y O_z fuel for complete combustion, as computed in
`heating_values`. -/
def stoichiometricA {K : Type} [Field K] (x y z : K) : K := x + y / 4 - z / 2

/-- Product mole numbers `(N_CO2, N_H2O, N_N2) = (x, y/2., 3.76*a)` per mole
of fuel for complete combustion of stoichiometric reactants, as computed in
`heating_values`. -/
def prodMoles {K : Type} [Field K] (x y z : K) : K × K × K :=
  (x, y / 2, (376 : K) / 100 * stoichiometricA x y z)

/-- Shallow embedding of the notebook function `heating_values(fuel)`.

The Python function mutates the shared objects `gas` and `water`; here the gas
object is passed in as `g0` and the post-call gas state is returned alongside
the four heating values `(lhv_mass, lhv_mole, hhv_mass, hhv_mole)` (J/kg of
fuel, J/kmol of fuel, J/kg of fuel, J/kmol of fuel).  Each `let` mirrors one
statement of the source, in source order:
`gas.TP = T_ref, P_ref` keeps the composition and sets temperature/pressure;
`gas.set_equivalence_ratio` keeps temperature/pressure and sets the
composition; `gas.TPX = None, None, X_prod` keeps temperature/pressure and
sets the composition to the normalized product mole numbers. -/
def heating_values {K : Type} [Field K] (M : CanteraModel K) (fuel : String)
    (g0 : GasState M.Comp K) : (K × K × K × K) × GasState M.Comp K :=
  let Tr : K := T_ref K
  let Pr : K := one_atm K
  let g1 : GasState M.Comp K := ⟨Tr, Pr, g0.X⟩
  let g2 : GasState M.Comp K := ⟨g1.T, g1.P, M.eqRatioComp fuel⟩
  let Y_fuel_reac : K := M.massFrac g2.X fuel
  let h_reac_mass : K := M.enthalpy_mass g2.T g2.P g2.X
  let x : K := M.n_atoms fuel "C"
  let y : K := M.n_atoms fuel "H"
  let z : K := M.n_atoms fuel "O"
  let N : K × K × K := prodMoles x y z
  let g3 : GasState M.Comp K := ⟨g2.T, g2.P, M.normX N⟩
  let h_prod_mass : K := M.enthalpy_mass g3.T g3.P g3.X
  let lhv_mass : K := (h_reac_mass - h_prod_mass) / Y_fuel_reac
  let lhv_mole : K := lhv_mass * M.molecular_weights fuel
  let h_liq : K := M.waterH Tr 0
  let h_gas : K := M.waterH Tr 1
  let h_fg : K := h_gas - h_liq
  let m_h2o : K := N.2.1 * M.molecular_weights "H2O" / M.molecular_weights fuel
  let hhv_mass : K := lhv_mass + m_h2o * h_fg
  let hhv_mole : K := hhv_mass * M.molecular_weights fuel
  ((lhv_mass, lhv_mole, hhv_mass, hhv_mole), g3)

/-- The gas state after `gas.TP = T_ref, P_ref` and
`gas.set_equivalence_ratio(1.0, fuel, air)`: the state at which the reactant
enthalpy and fuel mass fraction are read. -/
def reactantState {K : Type} [Field K] (M : CanteraModel K) (fuel : String) :
    GasState M.Comp K :=
  ⟨T_ref K, one_atm K, M.eqRatioComp fuel⟩

/-- The gas state after `gas.TPX = None, None, X_prod`: the state at which the
product enthalpy is read, and the state in which the gas object is left when
`heating_values` returns. -/
def productState {K : Type} [Field K] (M : CanteraModel K) (fuel : String) :
    GasState M.Comp K :=
  ⟨T_ref K, one_atm K,
    M.normX (prodMoles (M.n_atoms fuel "C") (M.n_atoms fuel "H")
      (M.n_atoms fuel "O"))⟩

/-- Atoms of C, H, O, N on the reactant side of
`C_x H_y O_z + a (O2 + 3.76 N2)`, with `a` the stoichiometric coefficient
computed by `heating_values`. -/
def reactantAtoms {K : Type} [Field K] (x y z : K) : K × K × K × K :=
  let a := stoichiometricA x y z
  (x, y, z + 2 * a, 2 * ((376 : K) / 100 * a))

/-- Atoms of C, H, O, N on the product side
`N_CO2 CO2 + N_H2O H2O + N_N2 N2`, with the product mole numbers computed by
`heating_values` (via `prodMoles`). -/
def productAtoms {K : Type} [Field K] (x y z : K) : K × K × K × K :=
  let N := prodMoles x y z
  (N.1, 2 * N.2.1, 2 * N.1 + N.2.1, 2 * N.2.2)

end HeatingValue

namespace HeatingValue

/-- Concrete oracle instance recording the values the notebook obtained from
Cantera 2.4.0 with GRI-Mech 3.0 for the propane worked example: the reactant
and product mixture enthalpies, the fuel mass fraction, the atom counts of
C3H8, the molecular weights of C3H8 and H2O, and the water enthalpy of
vaporization, all as printed in the notebook's outputs.  The composition type
marks whether the mixture was last set by `set_equivalence_ratio` (reactants,
`none`) or by the product mole numbers (`some` of the mole triple). -/
def gri30 : CanteraModel ℚ where
  Comp := Option (ℚ × ℚ × ℚ)
  eqRatioComp := fun _ => none
  enthalpy_mass := fun _ _ c =>
    match c with
    | none => -142083.21261478376
    | some _ => -2939189.2483540904
  massFrac := fun _ _ => 0.06034469442007445
  n_atoms := fun _ e => if e = "C" then 3 else if e = "H" then 8 else 0
  molecular_weights := fun s => if s = "H2O" then 18.01528 else 44.09652
  normX := fun t => some t
  waterH := fun _ q => if q = 1 then 2442312.0195756946 else 0

/-- An arbitrary initial state of the `gri30` gas object (the notebook's
`gas` object has whatever state earlier cells left it in). -/
def gri30_g0 : GasState gri30.Comp ℚ := ⟨300, 100000, none⟩

/-- Evaluation lemma for `gri30`: the enthalpy the model reports at a
reactant composition. -/
lemma gri30_h_reac (T P : ℚ) (f : String) :
    gri30.enthalpy_mass T P (gri30.eqRatioComp f) = -142083.21261478376 := rfl

/-- Evaluation lemma for `gri30`: the enthalpy the model reports at a
product composition. -/
lemma gri30_h_prod (T P : ℚ) (t : ℚ × ℚ × ℚ) :
    gri30.enthalpy_mass T P (gri30.normX t) = -2939189.2483540904 := rfl

/-- Evaluation lemma for `gri30`: the fuel mass fraction the model reports. -/
lemma gri30_Y (c : gri30.Comp) (s : String) :
    gri30.massFrac c s = 0.06034469442007445 := rfl

/-- Fallible model of the external library: the calls that can raise an
exception in Cantera (species or element lookup inside
`set_equivalence_ratio`, `species_index`, `n_atoms`, and the composition
setter) return `Except`, carrying the library's error message.  Enthalpy
reads of an already-set state do not raise. -/
structure CanteraModelE (K : Type) where
  Comp : Type
  eqRatioComp : String → Except String Comp
  enthalpy_mass : K → K → Comp → K
  massFrac : Comp → String → Except String K
  n_atoms : String → String → Except String K
  molecular_weights : String → Except String K
  normX : K × K × K → Except String Comp
  waterH : K → K → K

/-- The notebook function `heating_values` over the fallible library model:
the same sequence of library calls, in source order, with each fallible call
sequenced through `Except` and no handler anywhere (the Python function
contains no `try`/`except`). -/
def heating_valuesE {K : Type} [Field K] (M : CanteraModelE K) (fuel : String)
    (g0 : GasState M.Comp K) :
    Except String ((K × K × K × K) × GasState M.Comp K) := do
  let Tr : K := T_ref K
  let Pr : K := one_atm K
  let g1 : GasState M.Comp K := ⟨Tr, Pr, g0.X⟩
  let rComp ← M.eqRatioComp fuel
  let g2 : GasState M.Comp K := ⟨g1.T, g1.P, rComp⟩
  let Y_fuel_reac ← M.massFrac g2.X fuel
  let h_reac_mass := M.enthalpy_mass g2.T g2.P g2.X
  let x ← M.n_atoms fuel "C"
  let y ← M.n_atoms fuel "H"
  let z ← M.n_atoms fuel "O"
  let N := prodMoles x y z
  let pComp ← M.normX N
  let g3 : GasState M.Comp K := ⟨g2.T, g2.P, pComp⟩
  let h_prod_mass := M.enthalpy_mass g3.T g3.P g3.X
  let lhv_mass := (h_reac_mass - h_prod_mass) / Y_fuel_reac
  let mwFuel ← M.molecular_weights fuel
  let lhv_mole := lhv_mass * mwFuel
  let h_liq := M.waterH Tr 0
  let h_gas := M.waterH Tr 1
  let h_fg := h_gas - h_liq
  let mwW ← M.molecular_weights "H2O"
  let m_h2o := N.2.1 * mwW / mwFuel
  let hhv_mass := lhv_mass + m_h2o * h_fg
  let hhv_mole := hhv_mass * mwFuel
  return ((lhv_mass, lhv_mole, hhv_mass, hhv_mole), g3)

/-- An error message is one raised by the external library model: some
library call, on some input, returns exactly this error. -/
def libraryError {K : Type} (M : CanteraModelE K) (e : String) : Prop :=
  (∃ s, M.eqRatioComp s = Except.error e) ∨
  (∃ c s, M.massFrac c s = Except.error e) ∨
  (∃ s t, M.n_atoms s t = Except.error e) ∨
  (∃ s, M.molecular_weights s = Except.error e) ∨
  (∃ t, M.normX t = Except.error e)

/-- A fallible library model whose species lookup always fails, standing for
a fuel species absent from the thermodynamic database. -/
def failModel : CanteraModelE ℚ where
  Comp := Unit
  eqRatioComp := fun _ => Except.error "unknown species"
  enthalpy_mass := fun _ _ _ => 0
  massFrac := fun _ _ => Except.ok 1
  n_atoms := fun _ _ => Except.ok 0
  molecular_weights := fun _ => Except.ok 1
  normX := fun _ => Except.ok ()
  waterH := fun _ _ => 0

/-- C1: for every fuel formula with non-negative atom counts `x` (carbon),
`y` (hydrogen), `z` (oxygen), the stoichiometric coefficient
`a = x + y/4 - z/2` and the product mole numbers `N_CO2 = x`, `N_H2O = y/2`,
`N_N2 = 3.76*a` computed by the heating-value routine conserve the C, H, O
and N atom counts between the reactant side `C_x H_y O_z + a (O2 + 3.76 N2)`
and the product side `x CO2 + (y/2) H2O + 3.76 a N2` of the combustion
equation. -/
theorem atom_balance {K : Type} [LinearOrderedField K] (x y z : K)
    (hx : 0 ≤ x) (hy : 0 ≤ y) (hz : 0 ≤ z) :
    reactantAtoms x y z = productAtoms x y z := by
  simp only [reactantAtoms, productAtoms, prodMoles, stoichiometricA,
    Prod.mk.injEq]
  refine ⟨by ring, by ring, by ring, by ring⟩

/-- Witness for C1 at the propane formula `x = 3`, `y = 8`, `z = 0`. -/
theorem atom_balance_witness :
    ((0 : ℚ) ≤ 3 ∧ (0 : ℚ) ≤ 8 ∧ (0 : ℚ) ≤ 0) ∧
      reactantAtoms (3 : ℚ) 8 0 = productAtoms (3 : ℚ) 8 0 :=
  ⟨⟨by norm_num, by norm_num, le_refl 0⟩,
    atom_balance 3 8 0 (by norm_num) (by norm_num) (by norm_num)⟩

/-- C2: for every fuel with a positive reactant fuel mass fraction, the lower
heating value per unit mass of fuel returned by `heating_values` is the
reactant mixture enthalpy per unit mass minus the product mixture enthalpy
per unit mass, divided by the fuel mass fraction in the reactants, with both
enthalpies evaluated at the same reference temperature 298.15 K and pressure
1 atm (101325 Pa). -/
theorem lhv_mass_eq_enthalpy_difference {K : Type} [LinearOrderedField K]
    (M : CanteraModel K) (fuel : String) (g0 : GasState M.Comp K)
    (h : 0 < M.massFrac (M.eqRatioComp fuel) fuel) :
    (heating_values M fuel g0).1.1 =
      (M.enthalpy_mass (298.15 : K) 101325 (M.eqRatioComp fuel) -
          M.enthalpy_mass (298.15 : K) 101325 ((productState M fuel).X)) /
        M.massFrac (M.eqRatioComp fuel) fuel := rfl

/-- Witness for C2 at the recorded propane instance. -/
theorem lhv_mass_eq_enthalpy_difference_witness :
    0 < gri30.massFrac (gri30.eqRatioComp "C3H8") "C3H8" ∧
      (heating_values gri30 "C3H8" gri30_g0).1.1 =
        (gri30.enthalpy_mass (298.15 : ℚ) 101325 (gri30.eqRatioComp "C3H8") -
            gri30.enthalpy_mass (298.15 : ℚ) 101325
              ((productState gri30 "C3H8").X)) /
          gri30.massFrac (gri30.eqRatioComp "C3H8") "C3H8" :=
  ⟨by norm_num [gri30_Y],
    lhv_mass_eq_enthalpy_difference gri30 "C3H8" gri30_g0
      (by norm_num [gri30_Y])⟩

/-- C3: for every fuel, the values returned by `heating_values` satisfy
`hhv_mass - lhv_mass = m_h2o * h_fg` exactly, where `m_h2o` is the moles of
product water per mole of fuel (`y/2`) multiplied by the molar-mass ratio of
water to fuel, and `h_fg` is the enthalpy of vaporization of water at the
reference state. -/
theorem hhv_sub_lhv_eq_vaporization {K : Type} [Field K]
    (M : CanteraModel K) (fuel : String) (g0 : GasState M.Comp K) :
    (heating_values M fuel g0).1.2.2.1 - (heating_values M fuel g0).1.1 =
      (M.n_atoms fuel "H" / 2 *
          (M.molecular_weights "H2O" / M.molecular_weights fuel)) *
        (M.waterH (T_ref K) 1 - M.waterH (T_ref K) 0) := by
  simp only [heating_values, prodMoles]
  ring

/-- C4: the higher heating value is computed by adding `m_h2o * h_fg` to the
lower heating value, where `h_fg` is obtained from the separate liquid/vapor
water object as the water enthalpy at the reference temperature with vapor
fraction 1 minus the water enthalpy at the reference temperature with vapor
fraction 0. -/
theorem hhv_eq_lhv_add_vaporization {K : Type} [Field K]
    (M : CanteraModel K) (fuel : String) (g0 : GasState M.Comp K) :
    (heating_values M fuel g0).1.2.2.1 =
      (heating_values M fuel g0).1.1 +
        (M.n_atoms fuel "H" / 2 * M.molecular_weights "H2O" /
            M.molecular_weights fuel) *
          (M.waterH (T_ref K) 1 - M.waterH (T_ref K) 0) := rfl

/-- C5: for the propane worked example (`C3H8`, x = 3, y = 8, z = 0) at the
reference state 298.15 K and 1 atm, with the enthalpies and molecular weights
recorded in the notebook, the computed lower heating value is approximately
46352 kJ per kg of fuel and the computed higher heating value is
approximately 50343 kJ per kg of fuel (the returned values are in J per kg,
hence the division by 1000). -/
theorem propane_example_heating_values :
    ((46352 : ℚ) < (heating_values gri30 "C3H8" gri30_g0).1.1 / 1000 ∧
        (heating_values gri30 "C3H8" gri30_g0).1.1 / 1000 < 46353) ∧
      (50343 : ℚ) < (heating_values gri30 "C3H8" gri30_g0).1.2.2.1 / 1000 ∧
        (heating_values gri30 "C3H8" gri30_g0).1.2.2.1 / 1000 < 50344 := by
  norm_num +decide [heating_values, gri30, gri30_g0, prodMoles,
    stoichiometricA, T_ref, one_atm, gri30_h_reac, gri30_h_prod, gri30_Y]

/-- C6: when `heating_values` re-sets the mixture composition to the product
state, the mixture temperature and pressure are left unchanged at the
reference values set for the reactants, so the product enthalpy is read at
the identical reference temperature and pressure as the reactant enthalpy. -/
theorem product_read_at_reactant_TP {K : Type} [Field K]
    (M : CanteraModel K) (fuel : String) (g0 : GasState M.Comp K) :
    (heating_values M fuel g0).2.T = (reactantState M fuel).T ∧
      (heating_values M fuel g0).2.P = (reactantState M fuel).P ∧
      (reactantState M fuel).T = (298.15 : K) ∧
      (reactantState M fuel).P = (101325 : K) :=
  ⟨rfl, rfl, rfl, rfl⟩

/-- C7: `heating_values` returns exactly the four scalars
`(lhv_mass, lhv_mole, hhv_mass, hhv_mole)` and the per-mole values equal the
corresponding per-mass values multiplied by the molecular weight of the fuel
species. -/
theorem heating_values_four_outputs {K : Type} [Field K]
    (M : CanteraModel K) (fuel : String) (g0 : GasState M.Comp K) :
    (heating_values M fuel g0).1 =
      ((heating_values M fuel g0).1.1,
        (heating_values M fuel g0).1.1 * M.molecular_weights fuel,
        (heating_values M fuel g0).1.2.2.1,
        (heating_values M fuel g0).1.2.2.1 * M.molecular_weights fuel) := rfl

/-- C8: `heating_valuesE` performs no internal validation or exception
handling: every error in its result is an error produced by some call of the
underlying library model, propagated unmodified, and no error originates in
the function itself. -/
theorem heating_valuesE_error_from_library {K : Type} [Field K]
    (M : CanteraModelE K) (fuel : String) (g0 : GasState M.Comp K)
    (e : String) (h : heating_valuesE M fuel g0 = Except.error e) :
    libraryError M e := by
  simp only [heating_valuesE, bind, Except.bind] at h
  rcases h1 : M.eqRatioComp fuel with e1 | rComp
  · rw [h1] at h
    cases h
    exact Or.inl ⟨fuel, h1⟩
  simp only [h1] at h
  rcases h2 : M.massFrac rComp fuel with e2 | yf
  · simp only [h2] at h
    cases h
    exact Or.inr (Or.inl ⟨rComp, fuel, h2⟩)
  simp only [h2] at h
  rcases h3 : M.n_atoms fuel "C" with e3 | x
  · simp only [h3] at h
    cases h
    exact Or.inr (Or.inr (Or.inl ⟨fuel, "C", h3⟩))
  simp only [h3] at h
  rcases h4 : M.n_atoms fuel "H" with e4 | y
  · simp only [h4] at h
    cases h
    exact Or.inr (Or.inr (Or.inl ⟨fuel, "H", h4⟩))
  simp only [h4] at h
  rcases h5 : M.n_atoms fuel "O" with e5 | z
  · simp only [h5] at h
    cases h
    exact Or.inr (Or.inr (Or.inl ⟨fuel, "O", h5⟩))
  simp only [h5] at h
  rcases h6 : M.normX (prodMoles x y z) with e6 | pComp
  · simp only [h6] at h
    cases h
    exact Or.inr (Or.inr (Or.inr (Or.inr ⟨prodMoles x y z, h6⟩)))
  simp only [h6] at h
  rcases h7 : M.molecular_weights fuel with e7 | mwFuel
  · simp only [h7] at h
    cases h
    exact Or.inr (Or.inr (Or.inr (Or.inl ⟨fuel, h7⟩)))
  simp only [h7] at h
  rcases h8 : M.molecular_weights "H2O" with e8 | mwW
  · simp only [h8] at h
    cases h
    exact Or.inr (Or.inr (Or.inr (Or.inl ⟨"H2O", h8⟩)))
  simp only [h8] at h
  exact Except.noConfusion h

/-- Witness for C8: a library model whose species lookup fails makes
`heating_valuesE` return that very library error. -/
theorem heating_valuesE_error_witness :
    heating_valuesE failModel "C9H99" ⟨0, 0, ()⟩ =
        Except.error "unknown species" ∧
      libraryError failModel "unknown species" :=
  ⟨rfl,
    heating_valuesE_error_from_library failModel "C9H99" ⟨0, 0, ()⟩
      "unknown species" rfl⟩

/-- C9: the four values returned by `heating_values` (and the final gas
state) are independent of the thermochemical state of the shared gas object
before the call: for any two initial gas states the results are equal,
because the function re-sets temperature, pressure and composition before
reading any property. -/
theorem heating_values_independent_of_initial_state {K : Type} [Field K]
    (M : CanteraModel K) (fuel : String) (g0 g1 : GasState M.Comp K) :
    heating_values M fuel g0 = heating_values M fuel g1 := rfl

/-- C10: after `heating_values` returns, the shared gas object is left in the
complete-combustion product state at the reference temperature and pressure,
not restored to the caller's prior state (shown by a concrete instance whose
initial state differs from the final state). -/
theorem heating_values_leaves_product_state :
    (∀ (K : Type) (_ : Field K) (M : CanteraModel K) (fuel : String)
        (g0 : GasState M.Comp K),
      (heating_values M fuel g0).2 = productState M fuel) ∧
      (heating_values gri30 "C3H8" gri30_g0).2 ≠ gri30_g0 := by
  refine ⟨fun K _ M fuel g0 => rfl, fun h => ?_⟩
  have hT := congrArg (GasState.T) h
  norm_num [heating_values, gri30_g0, T_ref] at hT

end HeatingValue
